import Mathlib

/-!
Shallow embedding of the core numerical engine of `src/main.py`
(ADB calculator: balance projector + ADB estimator).

Modelling conventions:
* Python `datetime.date` values are modelled as proleptic-Gregorian ordinals
  (`date.toordinal()`), i.e. plain integers; `timedelta(days=1)` is `+ 1`
  and date comparison is integer comparison.
* Python `float` monetary amounts are modelled as `ℚ` (exact arithmetic).
* A `TransactionMap` with `transactions.get(d, 0.0)` is modelled as a total
  function `Int → ℚ` (absent dates map to 0).
* `datetime.today().date()` read inside `calculate_adb_and_suggestion` is made
  an explicit `today : Int` parameter: it is an ambient input of the Python
  function, not one of its declared parameters.
* The `st.error` + empty-return failure of `generate_daily_balances` is
  modelled as `Except ProjError`.
-/

/-- `calendar.isleap year`: divisible by 4 and (not by 100 or by 400). -/
def isleap (year : Nat) : Bool :=
  year % 4 == 0 && (year % 100 != 0 || year % 400 == 0)

/-- `calendar.monthrange(year, month)[1]` for `month ∈ 1..12`: the number of
days of the month (the Lean function is total; Python raises
`IllegalMonthError` outside 1..12, which callers model separately). -/
def daysInMonth (year month : Nat) : Nat :=
  if month = 2 then (if isleap year then 29 else 28)
  else if month = 4 ∨ month = 6 ∨ month = 9 ∨ month = 11 then 30
  else 31

/-- Days in all years strictly before `year` (Python `datetime._days_before_year`). -/
def daysBeforeYear (year : Nat) : Nat :=
  365 * (year - 1) + (year - 1) / 4 - (year - 1) / 100 + (year - 1) / 400

/-- Days in the months of `year` strictly before `month`
(Python `datetime._days_before_month`). -/
def daysBeforeMonth (year month : Nat) : Nat :=
  ((List.range (month - 1)).map (fun k => daysInMonth year (k + 1))).sum

/-- `datetime.date(year, month, day).toordinal()`. -/
def toOrdinal (year month day : Nat) : Nat :=
  daysBeforeYear year + daysBeforeMonth year month + day

/-- Error kind of the balance projector: month outside 1–12
(the `calendar.IllegalMonthError` branch of `generate_daily_balances`,
which reports `st.error` and returns `[], []`). -/
inductive ProjError where
  | invalidPeriod
  deriving DecidableEq, Repr

/-- The day-by-day loop of `generate_daily_balances`: for each
`day_offset` in `range(days_in_month)` (here counted down by `remaining`),
`current_balance += transactions.get(first_day + day_offset, 0.0)` and the
day and updated balance are appended. -/
def balanceLoop (transactions : Int → ℚ) (firstDay : Int) :
    Nat → Nat → ℚ → List Int × List ℚ
  | _, 0, _ => ([], [])
  | dayOffset, remaining + 1, currentBalance =>
    let currentDay : Int := firstDay + dayOffset
    let newBalance : ℚ := currentBalance + transactions currentDay
    let rest := balanceLoop transactions firstDay (dayOffset + 1) remaining newBalance
    (currentDay :: rest.1, newBalance :: rest.2)

/-- `generate_daily_balances(start_balance, transactions, year, month)` of
`src/main.py`: computes `days_in_month` (failing with `InvalidPeriod` for a
month outside 1–12), then builds the per-day dates and running balances. -/
def generate_daily_balances (start_balance : ℚ) (transactions : Int → ℚ)
    (year month : Nat) : Except ProjError (List Int × List ℚ) :=
  if 1 ≤ month ∧ month ≤ 12 then
    Except.ok (balanceLoop transactions (toOrdinal year month 1) 0
      (daysInMonth year month) start_balance)
  else
    Except.error ProjError.invalidPeriod

/-- The dates of the month `(year, month)` in ascending order:
`first_day + k` for `k < daysInMonth year month`. -/
def monthDates (year month : Nat) : List Int :=
  (List.range (daysInMonth year month)).map
    (fun k : Nat => (toOrdinal year month 1 : Int) + (k : Int))

/-- `first_day_of_selected_month = datetime(year, month, 1).date()`. -/
def first_day_of_selected_month (year month : Nat) : Int :=
  toOrdinal year month 1

/-- `last_day_of_selected_month = datetime(year, month,
calendar.monthrange(year, month)[1]).date()`. -/
def last_day_of_selected_month (year month : Nat) : Int :=
  toOrdinal year month (daysInMonth year month)

/-- The result record of `calculate_adb_and_suggestion` (the Python dict,
as an immutable record). -/
structure ADBResult where
  sum_of_balances_so_far : ℚ
  total_required_balance_for_month : ℚ
  remaining_balance_needed : ℚ
  required_avg : ℚ
  todays_balance : ℚ
  adjustment : ℚ
  future_days : Int
  past_days : Nat
  current_adb : ℚ
  days_in_month : Nat
  on_track_for_target : Bool
  effective_today_for_suggestion : Int
  deriving DecidableEq, Repr

/-- The zeroed default record returned by `calculate_adb_and_suggestion`
when `dates` or `daily_balances` is empty (the Python default dict carries
the zero numeric fields and a false on-track flag; fields absent from that
dict are zeroed here as well). -/
def emptyADBResult : ADBResult where
  sum_of_balances_so_far := 0
  total_required_balance_for_month := 0
  remaining_balance_needed := 0
  required_avg := 0
  todays_balance := 0
  adjustment := 0
  future_days := 0
  past_days := 0
  current_adb := 0
  days_in_month := 0
  on_track_for_target := false
  effective_today_for_suggestion := 0

/-- The "effective yesterday" of `calculate_adb_and_suggestion`:
`last_day` if the month is past, `today − 1` if today is inside the month,
`first_day − 1` if the month is in the future. -/
def effectiveYesterday (firstDay lastDay today : Int) : Int :=
  if lastDay < today then lastDay
  else if firstDay ≤ today ∧ today ≤ lastDay then today - 1
  else firstDay - 1

/-- `sum(balance for date, balance in zip(dates, daily_balances) if date <= effective_yesterday)`. -/
def sumSoFar (dates : List Int) (daily_balances : List ℚ) (effYest : Int) : ℚ :=
  ((((dates.zip daily_balances).filter (fun p => p.1 ≤ effYest)).map Prod.snd)).sum

/-- The "today's balance for the suggestion" of `calculate_adb_and_suggestion`:
the last balance if `effective_today` is past the month, else the balance on
`effective_today` if present, else a positional fallback. -/
def todaysBalanceFor (dates : List Int) (daily_balances : List ℚ)
    (lastDay effToday : Int) (pastDaysCount : Nat) : ℚ :=
  if lastDay < effToday then daily_balances.getLastD 0
  else
    match (dates.zip daily_balances).find? (fun p => p.1 == effToday) with
    | some p => p.2
    | none => daily_balances.getD pastDaysCount (daily_balances.getLastD 0)

/-- `calculate_adb_and_suggestion(dates, daily_balances, target_adb,
selected_year, selected_month)` of `src/main.py`, with the wall-clock read
`datetime.today().date()` passed explicitly as `today`. -/
def calculate_adb_and_suggestion (dates : List Int) (daily_balances : List ℚ)
    (target_adb : ℚ) (selected_year selected_month : Nat) (today : Int) :
    ADBResult :=
  if dates = [] ∨ daily_balances = [] then emptyADBResult
  else
    let last_day : Int := last_day_of_selected_month selected_year selected_month
    let first_day : Int := first_day_of_selected_month selected_year selected_month
    let days_in_month : Nat := dates.length
    let effective_yesterday : Int := effectiveYesterday first_day last_day today
    let past_days_count : Nat := dates.countP (fun d => d ≤ effective_yesterday)
    let future_days_count : Int := (days_in_month : Int) - past_days_count
    let sum_of_balances_so_far : ℚ := sumSoFar dates daily_balances effective_yesterday
    let current_sum_total : ℚ := daily_balances.sum
    let current_adb : ℚ :=
      if 0 < days_in_month then current_sum_total / days_in_month else 0
    let total_required_balance_for_month : ℚ := target_adb * days_in_month
    let remaining_balance_needed_for_target : ℚ :=
      total_required_balance_for_month - sum_of_balances_so_far
    let required_avg_from_effective_today : ℚ :=
      if 0 < future_days_count then
        remaining_balance_needed_for_target / (future_days_count : ℚ)
      else 0
    let effective_today_for_balance : Int := effective_yesterday + 1
    let todays_balance_for_suggestion : ℚ :=
      todaysBalanceFor dates daily_balances last_day effective_today_for_balance
        past_days_count
    let adjustment : ℚ :=
      if 0 < future_days_count then
        required_avg_from_effective_today - todays_balance_for_suggestion
      else 0
    let on_track : Bool :=
      if past_days_count = days_in_month then
        decide (target_adb ≤ current_adb)
      else if 0 < future_days_count then
        decide (required_avg_from_effective_today ≤ todays_balance_for_suggestion)
      else false
    { sum_of_balances_so_far := sum_of_balances_so_far
      total_required_balance_for_month := total_required_balance_for_month
      remaining_balance_needed := remaining_balance_needed_for_target
      required_avg := required_avg_from_effective_today
      todays_balance := todays_balance_for_suggestion
      adjustment := adjustment
      future_days := future_days_count
      past_days := past_days_count
      current_adb := current_adb
      days_in_month := days_in_month
      on_track_for_target := on_track
      effective_today_for_suggestion := effective_today_for_balance }

/-! ### Characterization of the projector loop -/

lemma balanceLoop_fst (transactions : Int → ℚ) (firstDay : Int) :
    ∀ (n dayOffset : Nat) (b : ℚ),
      (balanceLoop transactions firstDay dayOffset n b).1 =
        (List.range n).map (fun i => firstDay + ((dayOffset + i : Nat) : Int)) := by
  intro n
  induction n with
  | zero => intro k b; simp [balanceLoop]
  | succ n ih =>
    intro k b
    rw [List.range_succ_eq_map, List.map_cons, List.map_map]
    simp only [balanceLoop]
    refine List.cons_eq_cons.mpr ⟨by push_cast; ring, ?_⟩
    rw [ih (k + 1)]
    refine List.map_congr_left ?_
    intro i _
    simp only [Function.comp_apply]
    push_cast
    ring

lemma balanceLoop_snd (transactions : Int → ℚ) (firstDay : Int) :
    ∀ (n dayOffset : Nat) (b : ℚ),
      (balanceLoop transactions firstDay dayOffset n b).2 =
        (List.range n).map (fun i =>
          b + ∑ j in Finset.range (i + 1),
            transactions (firstDay + ((dayOffset + j : Nat) : Int))) := by
  intro n
  induction n with
  | zero => intro k b; simp [balanceLoop]
  | succ n ih =>
    intro k b
    rw [List.range_succ_eq_map, List.map_cons, List.map_map]
    simp only [balanceLoop]
    refine List.cons_eq_cons.mpr ⟨by simp, ?_⟩
    rw [ih (k + 1)]
    refine List.map_congr_left ?_
    intro i _
    simp only [Function.comp_apply, Nat.succ_eq_add_one]
    conv_rhs => rw [Finset.sum_range_succ']
    have hsum :
        ∑ j in Finset.range (i + 1),
            transactions (firstDay + ((k + 1 + j : Nat) : Int)) =
        ∑ j in Finset.range (i + 1),
            transactions (firstDay + ((k + (j + 1) : Nat) : Int)) := by
      refine Finset.sum_congr rfl ?_
      intro j _
      congr 1
      omega
    rw [hsum]
    simp only [Nat.add_zero]
    ring

lemma daysInMonth_ge (year month : Nat) : 28 ≤ daysInMonth year month := by
  unfold daysInMonth
  split_ifs <;> omega

lemma monthDates_length (year month : Nat) :
    (monthDates year month).length = daysInMonth year month := by
  unfold monthDates
  rw [List.length_map, List.length_range]

lemma toOrdinal_day (year month day : Nat) :
    (toOrdinal year month day : Int) = (toOrdinal year month 1 : Int) + day - 1 := by
  unfold toOrdinal
  push_cast
  omega

lemma mem_monthDates {year month : Nat} {d : Int} (h : d ∈ monthDates year month) :
    (toOrdinal year month 1 : Int) ≤ d ∧
      d ≤ (toOrdinal year month 1 : Int) + daysInMonth year month - 1 := by
  unfold monthDates at h
  obtain ⟨k, hk, rfl⟩ := List.mem_map.mp h
  rw [List.mem_range] at hk
  omega

/-- C1: for every valid (year, month) with month in 1–12, every start balance
and every transaction map, `generate_daily_balances` succeeds and returns
exactly `daysInMonth year month` points whose dates are `first_day + k` for
`k = 0, 1, …` (strictly ascending with no gaps, starting at day 1) and whose
balance on day `k` is the start balance plus the sum of the transaction
amounts of the dates `first_day` through `first_day + k`; in particular the
first balance is `start_balance + transactions first_day`. -/
theorem generate_daily_balances_spec (start_balance : ℚ) (transactions : Int → ℚ)
    (year month : Nat) (_hy : 1 ≤ year) (h1 : 1 ≤ month) (h2 : month ≤ 12) :
    generate_daily_balances start_balance transactions year month =
      Except.ok
        ((List.range (daysInMonth year month)).map
            (fun k : Nat => (toOrdinal year month 1 : Int) + (k : Int)),
         (List.range (daysInMonth year month)).map
            (fun k : Nat => start_balance +
              ∑ j in Finset.range (k + 1),
                transactions ((toOrdinal year month 1 : Int) + (j : Int)))) := by
  rw [generate_daily_balances, if_pos ⟨h1, h2⟩]
  congr 1
  refine Prod.ext ?_ ?_
  · rw [balanceLoop_fst]
    refine List.map_congr_left ?_
    intro i _
    simp only [Nat.zero_add]
  · rw [balanceLoop_snd]
    refine List.map_congr_left ?_
    intro i _
    simp only [Nat.zero_add]

/-- Concrete instance of `generate_daily_balances_spec` (April 2024, a
constant transaction map). -/
theorem generate_daily_balances_spec_witness :
    1 ≤ 2024 ∧ 1 ≤ 4 ∧ 4 ≤ 12 ∧
    generate_daily_balances 250 (fun _ => 1) 2024 4 =
      Except.ok
        ((List.range (daysInMonth 2024 4)).map
            (fun k : Nat => (toOrdinal 2024 4 1 : Int) + (k : Int)),
         (List.range (daysInMonth 2024 4)).map
            (fun k : Nat => 250 + ∑ _j in Finset.range (k + 1), (1 : ℚ))) :=
  ⟨by decide, by decide, by decide,
    generate_daily_balances_spec 250 (fun _ => 1) 2024 4 (by decide) (by decide)
      (by decide)⟩

/-- C7: for every month outside 1–12 (and every start balance, transaction
map and year), `generate_daily_balances` fails with `InvalidPeriod` rather
than returning a balance sequence. -/
theorem generate_daily_balances_invalid_month (start_balance : ℚ)
    (transactions : Int → ℚ) (year month : Nat) (h : month = 0 ∨ 12 < month) :
    generate_daily_balances start_balance transactions year month =
      Except.error ProjError.invalidPeriod := by
  rw [generate_daily_balances, if_neg]
  omega

/-- Concrete instance of `generate_daily_balances_invalid_month` (month 13). -/
theorem generate_daily_balances_invalid_month_witness :
    (13 = 0 ∨ 12 < 13) ∧
    generate_daily_balances 0 (fun _ => 0) 2024 13 =
      Except.error ProjError.invalidPeriod :=
  ⟨by decide,
    generate_daily_balances_invalid_month 0 (fun _ => 0) 2024 13 (by decide)⟩

/-- C8: for every target ADB, year, month (and any dates list and reference
date), `calculate_adb_and_suggestion` applied to an empty balance sequence
returns the all-zero default record (every numeric field 0, on-track flag
false) instead of failing. -/
theorem calculate_adb_empty_balances (dates : List Int) (target_adb : ℚ)
    (selected_year selected_month : Nat) (today : Int) :
    calculate_adb_and_suggestion dates [] target_adb selected_year
        selected_month today = emptyADBResult := by
  rw [calculate_adb_and_suggestion, if_pos (Or.inr rfl)]

/-- C10: with a non-empty balance sequence, the returned past-day and
future-day counts are non-negative and always partition the day count,
`past_days + future_days = days_in_month = dates.length`. -/
theorem calculate_adb_partition (dates : List Int) (daily_balances : List ℚ)
    (target_adb : ℚ) (year month : Nat) (today : Int)
    (hd : dates ≠ []) (hb : daily_balances ≠ [])
    (_hlen : dates.length = daily_balances.length)
    (_hm1 : 1 ≤ month) (_hm2 : month ≤ 12) :
    ((calculate_adb_and_suggestion dates daily_balances target_adb year month
          today).past_days : Int) +
        (calculate_adb_and_suggestion dates daily_balances target_adb year month
          today).future_days = (dates.length : Int) ∧
    0 ≤ (calculate_adb_and_suggestion dates daily_balances target_adb year month
          today).future_days ∧
    (calculate_adb_and_suggestion dates daily_balances target_adb year month
          today).days_in_month = dates.length := by
  have hne : ¬(dates = [] ∨ daily_balances = []) := by
    push_neg
    exact ⟨hd, hb⟩
  rw [calculate_adb_and_suggestion, if_neg hne]
  dsimp only
  have hcount := List.countP_le_length
    (fun d => decide (d ≤ effectiveYesterday
      (first_day_of_selected_month year month)
      (last_day_of_selected_month year month) today))
    (l := dates)
  refine ⟨by omega, by omega, rfl⟩

/-- Concrete instance of `calculate_adb_partition` (April 2024, constant
balances, a mid-month reference date). -/
theorem calculate_adb_partition_witness :
    monthDates 2024 4 ≠ [] ∧ List.replicate 30 (100 : ℚ) ≠ [] ∧
    (monthDates 2024 4).length = (List.replicate 30 (100 : ℚ)).length ∧
    1 ≤ 4 ∧ 4 ≤ 12 ∧
    (((calculate_adb_and_suggestion (monthDates 2024 4)
          (List.replicate 30 (100 : ℚ)) 50 2024 4
          (toOrdinal 2024 4 10)).past_days : Int) +
        (calculate_adb_and_suggestion (monthDates 2024 4)
          (List.replicate 30 (100 : ℚ)) 50 2024 4
          (toOrdinal 2024 4 10)).future_days = ((monthDates 2024 4).length : Int) ∧
      0 ≤ (calculate_adb_and_suggestion (monthDates 2024 4)
          (List.replicate 30 (100 : ℚ)) 50 2024 4
          (toOrdinal 2024 4 10)).future_days ∧
      (calculate_adb_and_suggestion (monthDates 2024 4)
          (List.replicate 30 (100 : ℚ)) 50 2024 4
          (toOrdinal 2024 4 10)).days_in_month = (monthDates 2024 4).length) :=
  ⟨by decide, by decide, by decide, by decide, by decide,
    calculate_adb_partition (monthDates 2024 4) (List.replicate 30 (100 : ℚ))
      50 2024 4 (toOrdinal 2024 4 10) (by decide) (by decide) (by decide)
      (by decide) (by decide)⟩

/-- C6: with a non-empty balance sequence, the `current_adb` field equals the
sum of all balances divided by the number of points. -/
theorem calculate_adb_current_adb (dates : List Int) (daily_balances : List ℚ)
    (target_adb : ℚ) (year month : Nat) (today : Int)
    (hd : dates ≠ []) (hb : daily_balances ≠ [])
    (hlen : dates.length = daily_balances.length)
    (_hm1 : 1 ≤ month) (_hm2 : month ≤ 12) :
    (calculate_adb_and_suggestion dates daily_balances target_adb year month
        today).current_adb = daily_balances.sum / (daily_balances.length : ℚ) := by
  have hne : ¬(dates = [] ∨ daily_balances = []) := by
    push_neg
    exact ⟨hd, hb⟩
  rw [calculate_adb_and_suggestion, if_neg hne]
  dsimp only
  rw [if_pos (List.length_pos.mpr hd), hlen]

/-- Concrete instance of `calculate_adb_current_adb` (April 2024, constant
balances). -/
theorem calculate_adb_current_adb_witness :
    monthDates 2024 4 ≠ [] ∧ List.replicate 30 (100 : ℚ) ≠ [] ∧
    (monthDates 2024 4).length = (List.replicate 30 (100 : ℚ)).length ∧
    1 ≤ 4 ∧ 4 ≤ 12 ∧
    (calculate_adb_and_suggestion (monthDates 2024 4)
        (List.replicate 30 (100 : ℚ)) 50 2024 4
        (toOrdinal 2024 4 10)).current_adb =
      (List.replicate 30 (100 : ℚ)).sum / ((List.replicate 30 (100 : ℚ)).length : ℚ) :=
  ⟨by decide, by decide, by decide, by decide, by decide,
    calculate_adb_current_adb (monthDates 2024 4) (List.replicate 30 (100 : ℚ))
      50 2024 4 (toOrdinal 2024 4 10) (by decide) (by decide) (by decide)
      (by decide) (by decide)⟩

lemma countP_range_le (n : Nat) (f c : Int) :
    (List.range n).countP (fun k : Nat => decide (f + (k : Int) ≤ c)) =
      min n ((c - f + 1).toNat) := by
  induction n with
  | zero => simp
  | succ n ih =>
    rw [List.range_succ, List.countP_append, ih]
    have hsing : List.countP (fun k : Nat => decide (f + (k : Int) ≤ c)) [n] =
        if f + (n : Int) ≤ c then 1 else 0 := by
      by_cases h : f + (n : Int) ≤ c <;> simp [List.countP_cons, h]
    rw [hsing]
    by_cases h : f + (n : Int) ≤ c
    · rw [if_pos h]
      omega
    · rw [if_neg h]
      omega

lemma countP_monthDates (year month : Nat) (t : Int) :
    (monthDates year month).countP (fun d => decide (d ≤ t)) =
      min (daysInMonth year month) ((t - (toOrdinal year month 1 : Int) + 1).toNat) := by
  unfold monthDates
  rw [List.countP_map]
  exact countP_range_le _ _ _

lemma range_map_cons (first : Int) (n : Nat) :
    (List.range (n + 1)).map (fun i : Nat => first + (i : Int)) =
      first :: (List.range n).map (fun i : Nat => (first + 1) + (i : Int)) := by
  rw [List.range_succ_eq_map, List.map_cons, List.map_map]
  refine List.cons_eq_cons.mpr ⟨by simp, ?_⟩
  refine List.map_congr_left ?_
  intro i _
  simp only [Function.comp_apply]
  push_cast
  ring

lemma find_zip_range (n : Nat) :
    ∀ (first : Int) (bals : List ℚ) (k : Nat), bals.length = n → k < n →
      (((List.range n).map (fun i : Nat => first + (i : Int))).zip bals).find?
          (fun p => p.1 == first + (k : Int)) =
        some (first + (k : Int), bals.getD k 0) := by
  induction n with
  | zero => intro first bals k _ hk; omega
  | succ n ih =>
    intro first bals k hlen hk
    rcases bals with _ | ⟨b, bs⟩
    · simp at hlen
    · rw [range_map_cons, List.zip_cons_cons]
      rcases Nat.eq_zero_or_pos k with hk0 | hkpos
      · subst hk0
        rw [List.find?_cons_of_pos _ (by simp)]
        simp
      · obtain ⟨j, rfl⟩ : ∃ j, k = j + 1 := ⟨k - 1, by omega⟩
        rw [List.find?_cons_of_neg _ (by simp; omega)]
        have harg : first + ((j + 1 : Nat) : Int) = (first + 1) + (j : Int) := by
          push_cast
          ring
        rw [harg, ih (first + 1) bs j (by simpa using hlen) (by omega)]
        simp

lemma monthDates_ne_nil (year month : Nat) : monthDates year month ≠ [] := by
  intro hcontra
  have hlen := monthDates_length year month
  rw [hcontra] at hlen
  have := daysInMonth_ge year month
  simp at hlen
  omega

lemma last_day_eq (year month : Nat) :
    last_day_of_selected_month year month =
      first_day_of_selected_month year month + (daysInMonth year month : Int) - 1 := by
  unfold last_day_of_selected_month first_day_of_selected_month
  rw [toOrdinal_day]

/-- C9: with a balance sequence covering (year, month) and a reference date
strictly before the first day, the estimator reports zero past days, a zero
sum of balances so far, and a required average from today equal to the
target ADB. -/
theorem calculate_adb_month_in_future (year month : Nat) (_hm1 : 1 ≤ month)
    (_hm2 : month ≤ 12) (daily_balances : List ℚ)
    (hlen : daily_balances.length = daysInMonth year month) (target_adb : ℚ)
    (today : Int) (htoday : today < first_day_of_selected_month year month) :
    (calculate_adb_and_suggestion (monthDates year month) daily_balances
        target_adb year month today).past_days = 0 ∧
    (calculate_adb_and_suggestion (monthDates year month) daily_balances
        target_adb year month today).sum_of_balances_so_far = 0 ∧
    (calculate_adb_and_suggestion (monthDates year month) daily_balances
        target_adb year month today).required_avg = target_adb := by
  have hn : 28 ≤ daysInMonth year month := daysInMonth_ge year month
  have hlast := last_day_eq year month
  have hb : daily_balances ≠ [] := by
    intro hcontra
    rw [hcontra] at hlen
    simp at hlen
    omega
  have hne : ¬(monthDates year month = [] ∨ daily_balances = []) := by
    push_neg
    exact ⟨monthDates_ne_nil year month, hb⟩
  have heff : effectiveYesterday (first_day_of_selected_month year month)
      (last_day_of_selected_month year month) today =
      first_day_of_selected_month year month - 1 := by
    unfold effectiveYesterday
    rw [if_neg (by omega), if_neg (by omega)]
  rw [calculate_adb_and_suggestion, if_neg hne]
  dsimp only
  rw [heff]
  have hpast : (monthDates year month).countP
      (fun d => decide (d ≤ first_day_of_selected_month year month - 1)) = 0 := by
    rw [countP_monthDates]
    unfold first_day_of_selected_month
    omega
  have hsum : sumSoFar (monthDates year month) daily_balances
      (first_day_of_selected_month year month - 1) = 0 := by
    unfold sumSoFar
    have hnil : ((monthDates year month).zip daily_balances).filter
        (fun p => decide (p.1 ≤ first_day_of_selected_month year month - 1)) = [] := by
      rw [List.filter_eq_nil_iff]
      intro p hp
      obtain ⟨a, b⟩ := p
      have hmem := (List.of_mem_zip hp).1
      have hbnd := mem_monthDates hmem
      unfold first_day_of_selected_month
      simp only [decide_eq_true_eq]
      omega
    rw [hnil]
    simp
  rw [hpast, hsum, monthDates_length]
  refine ⟨rfl, rfl, ?_⟩
  rw [if_pos (by push_cast; omega)]
  have hcast : (((daysInMonth year month : Int) - ((0 : Nat) : Int) : Int) : ℚ) =
      (daysInMonth year month : ℚ) := by
    push_cast
    ring
  rw [hcast, sub_zero]
  rw [mul_div_cancel_right₀]
  exact Nat.cast_ne_zero.mpr (by omega)

/-- Concrete instance of `calculate_adb_month_in_future` (April 2024 analyzed
five days before it starts). -/
theorem calculate_adb_month_in_future_witness :
    1 ≤ 4 ∧ 4 ≤ 12 ∧
    (List.replicate 30 (100 : ℚ)).length = daysInMonth 2024 4 ∧
    first_day_of_selected_month 2024 4 - 5 < first_day_of_selected_month 2024 4 ∧
    ((calculate_adb_and_suggestion (monthDates 2024 4)
        (List.replicate 30 (100 : ℚ)) 75 2024 4
        (first_day_of_selected_month 2024 4 - 5)).past_days = 0 ∧
      (calculate_adb_and_suggestion (monthDates 2024 4)
        (List.replicate 30 (100 : ℚ)) 75 2024 4
        (first_day_of_selected_month 2024 4 - 5)).sum_of_balances_so_far = 0 ∧
      (calculate_adb_and_suggestion (monthDates 2024 4)
        (List.replicate 30 (100 : ℚ)) 75 2024 4
        (first_day_of_selected_month 2024 4 - 5)).required_avg = 75) :=
  ⟨by decide, by decide, by decide, by decide,
    calculate_adb_month_in_future 2024 4 (by decide) (by decide)
      (List.replicate 30 (100 : ℚ)) (by decide) 75
      (first_day_of_selected_month 2024 4 - 5) (by decide)⟩

/-- C4 (amended): with a covering balance sequence, past days are counted as
the claim states (0 when today ≤ first_day, else the days from first_day
through min(today − 1, last_day)); the future-day count equals
max 0 (last_day − max(today, first_day) + 1) when today ≤ last_day and 0
otherwise — the claim's formula with `today` clamped to `first_day`, which
differs from the claim when today precedes the month. -/
theorem calculate_adb_past_future_days (year month : Nat) (_hm1 : 1 ≤ month)
    (_hm2 : month ≤ 12) (daily_balances : List ℚ)
    (hlen : daily_balances.length = daysInMonth year month) (target_adb : ℚ)
    (today : Int) :
    (today ≤ first_day_of_selected_month year month →
      (calculate_adb_and_suggestion (monthDates year month) daily_balances
          target_adb year month today).past_days = 0) ∧
    (first_day_of_selected_month year month < today →
      ((calculate_adb_and_suggestion (monthDates year month) daily_balances
          target_adb year month today).past_days : Int) =
        min (today - 1) (last_day_of_selected_month year month) -
          first_day_of_selected_month year month + 1) ∧
    ((calculate_adb_and_suggestion (monthDates year month) daily_balances
        target_adb year month today).future_days =
      if today ≤ last_day_of_selected_month year month then
        max 0 (last_day_of_selected_month year month -
          max today (first_day_of_selected_month year month) + 1)
      else 0) := by
  have hn : 28 ≤ daysInMonth year month := daysInMonth_ge year month
  have hlast2 := toOrdinal_day year month (daysInMonth year month)
  have hb : daily_balances ≠ [] := by
    intro hcontra
    rw [hcontra] at hlen
    simp at hlen
    omega
  have hne : ¬(monthDates year month = [] ∨ daily_balances = []) := by
    push_neg
    exact ⟨monthDates_ne_nil year month, hb⟩
  rw [calculate_adb_and_suggestion, if_neg hne]
  dsimp only
  simp only [first_day_of_selected_month, last_day_of_selected_month]
  rw [countP_monthDates, monthDates_length]
  unfold effectiveYesterday
  refine ⟨?_, ?_, ?_⟩
  · intro h
    split_ifs <;> omega
  · intro h
    split_ifs <;> omega
  · split_ifs <;> omega

/-- Counterexample to C4 as stated: for April 2024 viewed one day before the
month starts (today = first_day − 1 ≤ last_day), the code returns
future_days = 30 (the whole month) while the claim's formula
max 0 ((last_day − today) + 1) gives 31. -/
theorem calculate_adb_future_days_cex :
    first_day_of_selected_month 2024 4 - 1 ≤ last_day_of_selected_month 2024 4 ∧
    (calculate_adb_and_suggestion (monthDates 2024 4)
        (List.replicate 30 (100 : ℚ)) 50 2024 4
        (first_day_of_selected_month 2024 4 - 1)).future_days = 30 ∧
    max 0 (last_day_of_selected_month 2024 4 -
      (first_day_of_selected_month 2024 4 - 1) + 1) = 31 := by
  refine ⟨by decide, ?_, by decide⟩
  decide

/-- Concrete instance of `calculate_adb_past_future_days` (April 2024 viewed
from April 10). -/
theorem calculate_adb_past_future_days_witness :
    1 ≤ 4 ∧ 4 ≤ 12 ∧
    (List.replicate 30 (100 : ℚ)).length = daysInMonth 2024 4 ∧
    ((toOrdinal 2024 4 10 : Int) ≤ first_day_of_selected_month 2024 4 →
      (calculate_adb_and_suggestion (monthDates 2024 4)
          (List.replicate 30 (100 : ℚ)) 50 2024 4
          (toOrdinal 2024 4 10)).past_days = 0) ∧
    (first_day_of_selected_month 2024 4 < (toOrdinal 2024 4 10 : Int) →
      ((calculate_adb_and_suggestion (monthDates 2024 4)
          (List.replicate 30 (100 : ℚ)) 50 2024 4
          (toOrdinal 2024 4 10)).past_days : Int) =
        min ((toOrdinal 2024 4 10 : Int) - 1) (last_day_of_selected_month 2024 4) -
          first_day_of_selected_month 2024 4 + 1) ∧
    ((calculate_adb_and_suggestion (monthDates 2024 4)
        (List.replicate 30 (100 : ℚ)) 50 2024 4
        (toOrdinal 2024 4 10)).future_days =
      if (toOrdinal 2024 4 10 : Int) ≤ last_day_of_selected_month 2024 4 then
        max 0 (last_day_of_selected_month 2024 4 -
          max (toOrdinal 2024 4 10 : Int) (first_day_of_selected_month 2024 4) + 1)
      else 0) :=
  ⟨by decide, by decide, by decide,
    (calculate_adb_past_future_days 2024 4 (by decide) (by decide)
      (List.replicate 30 (100 : ℚ)) (by decide) 50 (toOrdinal 2024 4 10)).1,
    (calculate_adb_past_future_days 2024 4 (by decide) (by decide)
      (List.replicate 30 (100 : ℚ)) (by decide) 50 (toOrdinal 2024 4 10)).2.1,
    (calculate_adb_past_future_days 2024 4 (by decide) (by decide)
      (List.replicate 30 (100 : ℚ)) (by decide) 50 (toOrdinal 2024 4 10)).2.2⟩

/-- C2 (amended): with a covering balance sequence, the reported
todays_projected_balance is the balance recorded for the date `today` when
first_day ≤ today ≤ last_day, the last balance when today > last_day, and —
unlike the claim's 0 — the balance of the first day when today < first_day. -/
theorem calculate_adb_todays_balance (year month : Nat) (_hm1 : 1 ≤ month)
    (_hm2 : month ≤ 12) (daily_balances : List ℚ)
    (hlen : daily_balances.length = daysInMonth year month) (target_adb : ℚ)
    (today : Int) :
    (first_day_of_selected_month year month ≤ today →
      today ≤ last_day_of_selected_month year month →
      (calculate_adb_and_suggestion (monthDates year month) daily_balances
          target_adb year month today).todays_balance =
        daily_balances.getD
          ((today - first_day_of_selected_month year month).toNat) 0) ∧
    (last_day_of_selected_month year month < today →
      (calculate_adb_and_suggestion (monthDates year month) daily_balances
          target_adb year month today).todays_balance =
        daily_balances.getLastD 0) ∧
    (today < first_day_of_selected_month year month →
      (calculate_adb_and_suggestion (monthDates year month) daily_balances
          target_adb year month today).todays_balance =
        daily_balances.getD 0 0) := by
  have hn : 28 ≤ daysInMonth year month := daysInMonth_ge year month
  have hlast2 := toOrdinal_day year month (daysInMonth year month)
  have hb : daily_balances ≠ [] := by
    intro hcontra
    rw [hcontra] at hlen
    simp at hlen
    omega
  have hne : ¬(monthDates year month = [] ∨ daily_balances = []) := by
    push_neg
    exact ⟨monthDates_ne_nil year month, hb⟩
  rw [calculate_adb_and_suggestion, if_neg hne]
  dsimp only
  simp only [first_day_of_selected_month, last_day_of_selected_month]
  refine ⟨?_, ?_, ?_⟩
  · intro h1 h2
    have heff : effectiveYesterday (toOrdinal year month 1 : Int)
        (toOrdinal year month (daysInMonth year month) : Int) today = today - 1 := by
      unfold effectiveYesterday
      rw [if_neg (by omega), if_pos ⟨h1, h2⟩]
    simp only [heff]
    rw [show today - 1 + 1 = today from by omega]
    unfold todaysBalanceFor
    rw [if_neg (by omega)]
    obtain ⟨k, hk, hkeq⟩ : ∃ k : Nat, k < daysInMonth year month ∧
        today = (toOrdinal year month 1 : Int) + (k : Int) :=
      ⟨(today - (toOrdinal year month 1 : Int)).toNat, by omega, by omega⟩
    rw [hkeq]
    unfold monthDates
    rw [find_zip_range (daysInMonth year month) _ _ k hlen hk]
    have hidx : ((toOrdinal year month 1 : Int) + (k : Int) -
        (toOrdinal year month 1 : Int)).toNat = k := by
      omega
    rw [hidx]
  · intro h
    have heff : effectiveYesterday (toOrdinal year month 1 : Int)
        (toOrdinal year month (daysInMonth year month) : Int) today =
        (toOrdinal year month (daysInMonth year month) : Int) := by
      unfold effectiveYesterday
      rw [if_pos h]
    simp only [heff]
    unfold todaysBalanceFor
    rw [if_pos (by omega)]
  · intro h
    have heff : effectiveYesterday (toOrdinal year month 1 : Int)
        (toOrdinal year month (daysInMonth year month) : Int) today =
        (toOrdinal year month 1 : Int) - 1 := by
      unfold effectiveYesterday
      rw [if_neg (by omega), if_neg (by omega)]
    simp only [heff]
    rw [show (toOrdinal year month 1 : Int) - 1 + 1 =
      (toOrdinal year month 1 : Int) from by omega]
    unfold todaysBalanceFor
    rw [if_neg (by omega)]
    obtain ⟨b, bs, rfl⟩ : ∃ b bs, daily_balances = b :: bs := by
      rcases daily_balances with _ | ⟨b, bs⟩
      · exact absurd rfl hb
      · exact ⟨b, bs, rfl⟩
    unfold monthDates
    rw [show daysInMonth year month = (daysInMonth year month - 1) + 1 from by omega,
      range_map_cons, List.zip_cons_cons]
    rw [List.find?_cons_of_pos _ (by simp)]
    rfl

/-- Counterexample to C2 as stated: for April 2024 with all balances 100 and
today one day before the month, the claim says todays_projected_balance is 0,
but the code reports the first day's balance, 100. -/
theorem calculate_adb_todays_balance_cex :
    first_day_of_selected_month 2024 4 - 1 < first_day_of_selected_month 2024 4 ∧
    (calculate_adb_and_suggestion (monthDates 2024 4)
        (List.replicate 30 (100 : ℚ)) 50 2024 4
        (first_day_of_selected_month 2024 4 - 1)).todays_balance = 100 ∧
    (100 : ℚ) ≠ 0 := by
  refine ⟨by decide, by decide, by decide⟩

/-- Concrete instance of `calculate_adb_todays_balance` (April 2024 viewed
from April 10). -/
theorem calculate_adb_todays_balance_witness :
    1 ≤ 4 ∧ 4 ≤ 12 ∧
    (List.replicate 30 (100 : ℚ)).length = daysInMonth 2024 4 ∧
    ((first_day_of_selected_month 2024 4 ≤ (toOrdinal 2024 4 10 : Int) →
      (toOrdinal 2024 4 10 : Int) ≤ last_day_of_selected_month 2024 4 →
      (calculate_adb_and_suggestion (monthDates 2024 4)
          (List.replicate 30 (100 : ℚ)) 50 2024 4
          (toOrdinal 2024 4 10)).todays_balance =
        (List.replicate 30 (100 : ℚ)).getD
          (((toOrdinal 2024 4 10 : Int) - first_day_of_selected_month 2024 4).toNat) 0) ∧
    (last_day_of_selected_month 2024 4 < (toOrdinal 2024 4 10 : Int) →
      (calculate_adb_and_suggestion (monthDates 2024 4)
          (List.replicate 30 (100 : ℚ)) 50 2024 4
          (toOrdinal 2024 4 10)).todays_balance =
        (List.replicate 30 (100 : ℚ)).getLastD 0) ∧
    ((toOrdinal 2024 4 10 : Int) < first_day_of_selected_month 2024 4 →
      (calculate_adb_and_suggestion (monthDates 2024 4)
          (List.replicate 30 (100 : ℚ)) 50 2024 4
          (toOrdinal 2024 4 10)).todays_balance =
        (List.replicate 30 (100 : ℚ)).getD 0 0)) :=
  ⟨by decide, by decide, by decide,
    calculate_adb_todays_balance 2024 4 (by decide) (by decide)
      (List.replicate 30 (100 : ℚ)) (by decide) 50 (toOrdinal 2024 4 10)⟩

/-- C3 (amended): the estimator is a deterministic pure function of its
declared inputs together with the wall-clock date it reads internally: two
calls with identical declared inputs evaluated at the same wall-clock date
return identical records. -/
theorem calculate_adb_deterministic (dates : List Int) (daily_balances : List ℚ)
    (target_adb : ℚ) (year month : Nat) (today : Int) :
    calculate_adb_and_suggestion dates daily_balances target_adb year month
        today =
      calculate_adb_and_suggestion dates daily_balances target_adb year month
        today := rfl

/-- Counterexample to C3 as stated: `today` is not a declared input of
`calculate_adb_and_suggestion` — the Python function reads
`datetime.today().date()` internally — and with all declared inputs
identical (April 2024, constant balances, target 50) the result differs
between a wall-clock date of April 1 and one 35 days later. -/
theorem calculate_adb_today_dependence_cex :
    calculate_adb_and_suggestion (monthDates 2024 4)
        (List.replicate 30 (100 : ℚ)) 50 2024 4
        (first_day_of_selected_month 2024 4) ≠
      calculate_adb_and_suggestion (monthDates 2024 4)
        (List.replicate 30 (100 : ℚ)) 50 2024 4
        (first_day_of_selected_month 2024 4 + 35) := by
  intro h
  have hpast := congrArg ADBResult.past_days h
  revert hpast
  decide

/-- C5: with a covering balance sequence, the adjustment equals
required_avg − todays_projected_balance when future_days > 0 and 0 when
future_days = 0; required_avg equals (target_adb × days_in_month −
sum_of_balances_so_far) / future_days when future_days > 0 and 0 otherwise;
and sum_of_balances_so_far is the sum of the balances of the dates in
[first_day, min(today − 1, last_day)]. -/
theorem calculate_adb_adjustment (year month : Nat) (_hm1 : 1 ≤ month)
    (_hm2 : month ≤ 12) (daily_balances : List ℚ)
    (hlen : daily_balances.length = daysInMonth year month) (target_adb : ℚ)
    (today : Int) :
    (0 < (calculate_adb_and_suggestion (monthDates year month) daily_balances
          target_adb year month today).future_days →
      (calculate_adb_and_suggestion (monthDates year month) daily_balances
          target_adb year month today).adjustment =
        (calculate_adb_and_suggestion (monthDates year month) daily_balances
          target_adb year month today).required_avg -
        (calculate_adb_and_suggestion (monthDates year month) daily_balances
          target_adb year month today).todays_balance) ∧
    ((calculate_adb_and_suggestion (monthDates year month) daily_balances
          target_adb year month today).future_days = 0 →
      (calculate_adb_and_suggestion (monthDates year month) daily_balances
          target_adb year month today).adjustment = 0) ∧
    (0 < (calculate_adb_and_suggestion (monthDates year month) daily_balances
          target_adb year month today).future_days →
      (calculate_adb_and_suggestion (monthDates year month) daily_balances
          target_adb year month today).required_avg =
        (target_adb * (daysInMonth year month : ℚ) -
          (calculate_adb_and_suggestion (monthDates year month) daily_balances
            target_adb year month today).sum_of_balances_so_far) /
          ((calculate_adb_and_suggestion (monthDates year month) daily_balances
            target_adb year month today).future_days : ℚ)) ∧
    ((calculate_adb_and_suggestion (monthDates year month) daily_balances
          target_adb year month today).future_days = 0 →
      (calculate_adb_and_suggestion (monthDates year month) daily_balances
          target_adb year month today).required_avg = 0) ∧
    (calculate_adb_and_suggestion (monthDates year month) daily_balances
        target_adb year month today).sum_of_balances_so_far =
      ((((monthDates year month).zip daily_balances).filter
          (fun p => decide (first_day_of_selected_month year month ≤ p.1 ∧
            p.1 ≤ min (today - 1) (last_day_of_selected_month year month)))).map
        Prod.snd).sum := by
  have hn : 28 ≤ daysInMonth year month := daysInMonth_ge year month
  have hlast2 := toOrdinal_day year month (daysInMonth year month)
  have hb : daily_balances ≠ [] := by
    intro hcontra
    rw [hcontra] at hlen
    simp at hlen
    omega
  have hne : ¬(monthDates year month = [] ∨ daily_balances = []) := by
    push_neg
    exact ⟨monthDates_ne_nil year month, hb⟩
  rw [calculate_adb_and_suggestion, if_neg hne]
  dsimp only
  simp only [first_day_of_selected_month, last_day_of_selected_month]
  rw [monthDates_length]
  refine ⟨?_, ?_, ?_, ?_, ?_⟩
  · intro h
    rw [if_pos h, if_pos h]
  · intro h
    rw [if_neg (by omega)]
  · intro h
    rw [if_pos h]
  · intro h
    rw [if_neg (by omega)]
  · unfold sumSoFar
    have hcongr : ∀ p ∈ (monthDates year month).zip daily_balances,
        (decide (p.1 ≤ effectiveYesterday (toOrdinal year month 1 : Int)
          (toOrdinal year month (daysInMonth year month) : Int) today)) =
        (decide ((toOrdinal year month 1 : Int) ≤ p.1 ∧
          p.1 ≤ min (today - 1)
            (toOrdinal year month (daysInMonth year month) : Int))) := by
      intro p hp
      obtain ⟨a, b⟩ := p
      have hmem := (List.of_mem_zip hp).1
      have hbnd := mem_monthDates hmem
      simp only [decide_eq_decide]
      unfold effectiveYesterday
      split_ifs <;> omega
    rw [List.filter_congr hcongr]

/-- Concrete instance of `calculate_adb_adjustment` (April 2024 viewed from
April 15). -/
theorem calculate_adb_adjustment_witness :
    1 ≤ 4 ∧ 4 ≤ 12 ∧
    (List.replicate 30 (100 : ℚ)).length = daysInMonth 2024 4 ∧
    ((0 < (calculate_adb_and_suggestion (monthDates 2024 4)
          (List.replicate 30 (100 : ℚ)) 50 2024 4
          (toOrdinal 2024 4 15)).future_days →
      (calculate_adb_and_suggestion (monthDates 2024 4)
          (List.replicate 30 (100 : ℚ)) 50 2024 4
          (toOrdinal 2024 4 15)).adjustment =
        (calculate_adb_and_suggestion (monthDates 2024 4)
          (List.replicate 30 (100 : ℚ)) 50 2024 4
          (toOrdinal 2024 4 15)).required_avg -
        (calculate_adb_and_suggestion (monthDates 2024 4)
          (List.replicate 30 (100 : ℚ)) 50 2024 4
          (toOrdinal 2024 4 15)).todays_balance) ∧
    ((calculate_adb_and_suggestion (monthDates 2024 4)
          (List.replicate 30 (100 : ℚ)) 50 2024 4
          (toOrdinal 2024 4 15)).future_days = 0 →
      (calculate_adb_and_suggestion (monthDates 2024 4)
          (List.replicate 30 (100 : ℚ)) 50 2024 4
          (toOrdinal 2024 4 15)).adjustment = 0) ∧
    (0 < (calculate_adb_and_suggestion (monthDates 2024 4)
          (List.replicate 30 (100 : ℚ)) 50 2024 4
          (toOrdinal 2024 4 15)).future_days →
      (calculate_adb_and_suggestion (monthDates 2024 4)
          (List.replicate 30 (100 : ℚ)) 50 2024 4
          (toOrdinal 2024 4 15)).required_avg =
        ((50 : ℚ) * (daysInMonth 2024 4 : ℚ) -
          (calculate_adb_and_suggestion (monthDates 2024 4)
            (List.replicate 30 (100 : ℚ)) 50 2024 4
            (toOrdinal 2024 4 15)).sum_of_balances_so_far) /
          ((calculate_adb_and_suggestion (monthDates 2024 4)
            (List.replicate 30 (100 : ℚ)) 50 2024 4
            (toOrdinal 2024 4 15)).future_days : ℚ)) ∧
    ((calculate_adb_and_suggestion (monthDates 2024 4)
          (List.replicate 30 (100 : ℚ)) 50 2024 4
          (toOrdinal 2024 4 15)).future_days = 0 →
      (calculate_adb_and_suggestion (monthDates 2024 4)
          (List.replicate 30 (100 : ℚ)) 50 2024 4
          (toOrdinal 2024 4 15)).required_avg = 0) ∧
    (calculate_adb_and_suggestion (monthDates 2024 4)
        (List.replicate 30 (100 : ℚ)) 50 2024 4
        (toOrdinal 2024 4 15)).sum_of_balances_so_far =
      ((((monthDates 2024 4).zip (List.replicate 30 (100 : ℚ))).filter
          (fun p => decide (first_day_of_selected_month 2024 4 ≤ p.1 ∧
            p.1 ≤ min ((toOrdinal 2024 4 15 : Int) - 1)
              (last_day_of_selected_month 2024 4)))).map
        Prod.snd).sum) :=
  ⟨by decide, by decide, by decide,
    calculate_adb_adjustment 2024 4 (by decide) (by decide)
      (List.replicate 30 (100 : ℚ)) (by decide) 50 (toOrdinal 2024 4 15)⟩
